import Mathlib

/-!
Shallow embedding of the message-to-record extraction pipeline of
`email_bot.py` (class `EmailInboxAnalyzer` and dataclass `EmailRecord`),
together with theorems settling the specification claims about it.

Python values are modelled as follows: `datetime` becomes a structure
holding naive wall-clock minutes since 0001-01-01T00:00 plus an optional
UTC-offset in minutes (`none` = timezone-naive); machine exceptions become
an `Except PyExn` result; `None`-able strings become `Option String`.
External library calls (email.utils, dateutil, bs4, codecs) are modelled
by explicit, documented definitions or by oracle environments recording
the library outcome at the inputs under study.
-/

/-- The Python exception classes that the analyzed code can raise or catch. -/
inductive PyExn where
  | typeError
  | valueError
  | overflowError
  | lookupError
  | keyError
  deriving DecidableEq, Repr

/-- Model of a Python `datetime.datetime`: `m` is the naive wall-clock time in
minutes since 0001-01-01T00:00 (so `datetime.min` is `m = 0`); `tz` is the
UTC offset in minutes when the value is timezone-aware, `none` when naive. -/
structure DT where
  m : Int
  tz : Option Int
  deriving DecidableEq, Repr

/-- Smallest representable naive minute count: `datetime.min` (0001-01-01T00:00). -/
def dtMinMinutes : Int := 0

/-- Largest representable naive minute count: `datetime.max` truncated to minutes
(9999-12-31T23:59); 3652059 is `date.max.toordinal()`. -/
def dtMaxMinutes : Int := 3652058 * 1440 + 1439

/-- `datetime.min`: 0001-01-01T00:00, timezone-naive. -/
def datetimeMin : DT := ⟨dtMinMinutes, none⟩

/-- Gregorian leap-year test, as in Python's `calendar.isleap`. -/
def isLeap (y : Nat) : Bool := y % 4 == 0 && (y % 100 != 0 || y % 400 == 0)

/-- Days in month `mo` of year `y` (1-based month). -/
def daysInMonth (y mo : Nat) : Nat :=
  if mo == 2 then (if isLeap y then 29 else 28)
  else if mo == 4 || mo == 6 || mo == 9 || mo == 11 then 30
  else 31

/-- Days in year `y` strictly before month `mo` (1-based). -/
def daysBeforeMonth (y mo : Nat) : Nat :=
  (List.range mo).foldl (fun acc k => if 1 ≤ k then acc + daysInMonth y k else acc) 0

/-- Proleptic Gregorian ordinal of the date `y-mo-d`, as `date.toordinal()`:
0001-01-01 is ordinal 1. -/
def dateOrdinal (y mo d : Nat) : Nat :=
  365 * (y - 1) + (y - 1) / 4 - (y - 1) / 100 + (y - 1) / 400 + daysBeforeMonth y mo + d

/-- The naive `datetime` at midnight of `y-mo-d`. -/
def mkDT (y mo d : Nat) : DT := ⟨((dateOrdinal y mo d - 1) * 1440 : Nat), none⟩

/-- Python `\\s` (and the `str.strip()` whitespace set) on the ASCII range;
every string the claims exercise uses only ASCII whitespace. -/
def isSpaceC (c : Char) : Bool :=
  c == ' ' || c == '\t' || c == '\n' || c == '\r' || c == Char.ofNat 11 || c == Char.ofNat 12

/-- Leading and trailing whitespace removed from a character list. -/
def trimList (l : List Char) : List Char :=
  (((l.dropWhile isSpaceC).reverse).dropWhile isSpaceC).reverse

/-- Model of `str.strip()` (kernel-reducible replacement for `String.trim`). -/
def pyStrip (s : String) : String := String.mk (trimList s.toList)

/-- Splits a character list at every occurrence of `c` (occurrences removed),
as Python `str.split(c)` does for a single-character separator. -/
def splitOnChar (c : Char) : List Char → List (List Char)
  | [] => [[]]
  | x :: xs =>
    if x == c then [] :: splitOnChar c xs
    else
      match splitOnChar c xs with
      | [] => [[x]]
      | h :: t => (x :: h) :: t

/-- `str.split` on a single-character separator, as strings. -/
def splitStr (c : Char) (s : String) : List String :=
  (splitOnChar c s.toList).map String.mk

/-- Concatenation of the pieces with `sep` between consecutive ones. -/
def joinWith (sep : String) : List String → String
  | [] => ""
  | [x] => x
  | x :: xs => x ++ sep ++ joinWith sep xs

/-- Model of `str.lower()`: ASCII case folding (every string handled by the
claims is ASCII or already lowercase at non-ASCII code points). -/
def strLower (s : String) : String := String.mk (s.toList.map Char.toLower)

/-- Substring containment test modelling Python's `needle in haystack`
on `str` (character lists compared position by position). -/
def listInfix (n : List Char) : List Char → Bool
  | [] => n.isEmpty
  | c :: cs => n.isPrefixOf (c :: cs) || listInfix n cs

/-- `pyIn needle hay` models Python's `needle in hay` for strings. -/
def pyIn (needle hay : String) : Bool := listInfix needle.toList hay.toList

/-- Truthiness filter for an optional string: Python treats `None` and the
empty string as falsy. -/
def pyTruthy (o : Option String) : Option String :=
  match o with
  | some s => if s = "" then none else some s
  | none => none

/-- Models the value observed by `if (a or b):` for two optional strings:
the first truthy operand, if any. -/
def pyOrStr (a b : Option String) : Option String :=
  match pyTruthy a with
  | some s => some s
  | none => pyTruthy b

/-- Header list of a message: pairs (field name, decoded field value), in
physical order. -/
abbrev Headers := List (String × String)

/-- Models `email.message.Message.get(name)` under `policy.default`:
case-insensitive lookup of the first header with the given field name. -/
def pyGet (hs : Headers) (name : String) : Option String :=
  (hs.find? fun h => strLower h.1 == strLower name).map Prod.snd

/-- One record per message, dataclass `EmailRecord` of `email_bot.py`. -/
structure EmailRecord where
  uid : String
  subject : String
  sender : String
  date_received : Option DT
  due_date : Option DT
  priority : String
  read_status : String
  pending_task : Bool
  deriving DecidableEq, Repr

/-- `EmailRecord.sort_key` (lines 35-39): unread weighs 0, read ("Leído")
weighs 1, and a missing received date is replaced by `datetime.min`. -/
def sort_key (r : EmailRecord) : Nat × DT :=
  (if r.read_status = "Leído" then 1 else 0, r.date_received.getD datetimeMin)

/-- Python `datetime.__eq__`: naive and aware values compare unequal without
raising; two naive values compare wall-clock; two aware values compare the
UTC instants. -/
def dtEqPy (a b : DT) : Bool :=
  match a.tz, b.tz with
  | none, none => a.m == b.m
  | some x, some y => (a.m - x) == (b.m - y)
  | _, _ => false

/-- Python `datetime.__lt__`: comparing a naive with an aware datetime raises
`TypeError`. -/
def dtLtPy (a b : DT) : Except PyExn Bool :=
  match a.tz, b.tz with
  | none, none => .ok (decide (a.m < b.m))
  | some x, some y => .ok (decide (a.m - x < b.m - y))
  | _, _ => .error .typeError

/-- Python `tuple.__lt__` on the 2-tuples produced by `sort_key`: elements are
first compared for equality, then the first differing position is compared
with `<` (which may raise for mixed naive/aware datetimes). -/
def keyLt (a b : Nat × DT) : Except PyExn Bool :=
  if a.1 == b.1 then
    if dtEqPy a.2 b.2 then .ok false else dtLtPy a.2 b.2
  else .ok (decide (a.1 < b.1))

/-- Comparison used by `records.sort(key=lambda r: (r.sort_key[0], r.sort_key[1]), ...)`. -/
def recLt (a b : EmailRecord) : Except PyExn Bool := keyLt (sort_key a) (sort_key b)

/-- Stable ascending insertion with a failable `<`: `x` (originally earlier)
is placed before the first element not strictly below it; a raising
comparison aborts the whole sort, as in CPython. -/
def insertE (lt : α → α → Except PyExn Bool) (x : α) : List α → Except PyExn (List α)
  | [] => .ok [x]
  | y :: ys =>
    match lt y x with
    | .error e => .error e
    | .ok true =>
      match insertE lt x ys with
      | .ok zs => .ok (y :: zs)
      | .error e => .error e
    | .ok false => .ok (x :: y :: ys)

/-- Stable ascending sort with a failable `<` (insertion sort; agrees with
CPython's stable sort whenever every needed comparison succeeds, and, like
it, compares the only pair of a two-element list exactly once). -/
def sortE (lt : α → α → Except PyExn Bool) : List α → Except PyExn (List α)
  | [] => .ok []
  | x :: xs =>
    match sortE lt xs with
    | .ok ys => insertE lt x ys
    | .error e => .error e

/-- `records.sort(key=lambda r: (r.sort_key[0], r.sort_key[1]), reverse=True)`
(line 111): CPython implements `reverse=True` by reversing the list, sorting
ascending stably, and reversing again. -/
def pySortRev (l : List EmailRecord) : Except PyExn (List EmailRecord) :=
  match sortE recLt l.reverse with
  | .ok ys => .ok ys.reverse
  | .error e => .error e

/-- Local timezone of the run, as a UTC offset in minutes. The failing inputs
below are exercised with the process running in UTC. -/
def localOffsetMinutes : Int := 0

/-- Python `datetime.astimezone()` converting to the local zone: an aware value
is shifted to UTC and then to the local offset, raising `OverflowError` when
an intermediate or final value leaves the representable range; a naive value
is interpreted as local time and just tagged with the local offset. -/
def astimezoneE (d : DT) : Except PyExn DT :=
  match d.tz with
  | some off =>
    let u : Int := d.m - off
    if u < dtMinMinutes || dtMaxMinutes < u then .error .overflowError
    else
      let v : Int := u + localOffsetMinutes
      if v < dtMinMinutes || dtMaxMinutes < v then .error .overflowError
      else .ok ⟨v, some localOffsetMinutes⟩
  | none => .ok ⟨d.m, some localOffsetMinutes⟩

/-- All-ASCII-digit test for a string. -/
def allDigits (s : String) : Bool := s.length > 0 && s.toList.all Char.isDigit

/-- Digits of a string as a number (assumes `allDigits`). -/
def digitsToNat (s : String) : Nat :=
  s.toList.foldl (fun acc c => 10 * acc + (c.toNat - 48)) 0

/-- Midnight of `y-mo-d` when that is a valid Gregorian date in years 1-9999,
else `none`. -/
def mkValidDate (y mo d : Nat) : Option DT :=
  if 1 ≤ y && y ≤ 9999 && 1 ≤ mo && mo ≤ 12 && 1 ≤ d && d ≤ daysInMonth y mo then
    some (mkDT y mo d)
  else none

/-- Modelled library call: `dateutil.parser.parse(value, dayfirst=True)`,
restricted to the purely numeric date strings that the due-date regular
expressions can capture (`YYYY-MM-DD`, which dateutil parses as ISO with
`dayfirst` irrelevant, and `D/M/Y` with a 4-digit year, which `dayfirst=True`
reads day-first). Every other input is treated as a parse failure, matching
dateutil raising `ParserError` (a `ValueError`) on unrecognized text. The
result is timezone-naive, at midnight, as dateutil returns for a bare date. -/
def dateutilParseDayfirst (s : String) : Option DT :=
  match splitStr '-' s with
  | [a, b, c] =>
    if allDigits a && a.length == 4 && allDigits b && b.length ≤ 2
        && allDigits c && c.length ≤ 2 then
      mkValidDate (digitsToNat a) (digitsToNat b) (digitsToNat c)
    else none
  | _ =>
    match splitStr '/' s with
    | [a, b, c] =>
      if allDigits a && a.length ≤ 2 && allDigits b && b.length ≤ 2
          && allDigits c && c.length == 4 then
        mkValidDate (digitsToNat c) (digitsToNat b) (digitsToNat a)
      else none
    | _ => none

/-- `EmailInboxAnalyzer._safe_parse_datetime` (lines 234-244): day-first parse;
a naive result is returned as is, an aware result is converted to the local
zone, and `ValueError`/`TypeError`/`OverflowError` (including an overflow in
`astimezone`) all collapse to `None`. -/
def safe_parse_datetime (s : String) : Option DT :=
  match dateutilParseDayfirst s with
  | none => none
  | some d =>
    match d.tz with
    | none => some d
    | some _ =>
      match astimezoneE d with
      | .ok x => some x
      | .error _ => none

/-- A parsed email message (`email.message.Message` as far as the analyzed
code inspects it): a leaf part carries its headers and the outcome of
`get_content()` (which may raise, e.g. `LookupError` for an unsupported
sub-encoding); a multipart node carries headers and its subparts, and
`get_content()` on it raises `KeyError` under `policy.default`. -/
inductive PyMsg where
  | single (headers : Headers) (content : Except PyExn String)
  | multi (headers : Headers) (parts : List PyMsg)

/-- Headers of a message node. -/
def PyMsg.headers : PyMsg → Headers
  | .single hs _ => hs
  | .multi hs _ => hs

/-- `Message.is_multipart()`. -/
def PyMsg.isMultipart : PyMsg → Bool
  | .single _ _ => false
  | .multi _ _ => true

/-- Outcome of `Message.get_content()`: the stored outcome on a leaf part;
`KeyError` on a multipart container (the content-manager has no multipart
handler). -/
def getContent : PyMsg → Except PyExn String
  | .single _ c => c
  | .multi _ _ => .error .keyError

mutual

/-- `Message.walk()`: the node itself followed by the walk of each subpart,
depth first. -/
def PyMsg.walk : PyMsg → List PyMsg
  | .single hs c => [.single hs c]
  | .multi hs ps => .multi hs ps :: PyMsg.walkList ps

/-- Concatenated walks of a list of subparts. -/
def PyMsg.walkList : List PyMsg → List PyMsg
  | [] => []
  | p :: rest => p.walk ++ PyMsg.walkList rest

end

/-- Models `Message.get_content_type()` under `policy.default` from a header
list: the maintype/subtype of the Content-Type header, lowercased and
trimmed, with parameters after the first `;` dropped; a missing header or a
value without a `/` falls back to the default `text/plain`. -/
def contentTypeOf (hs : Headers) : String :=
  match pyGet hs "Content-Type" with
  | none => "text/plain"
  | some v =>
    let ct := strLower (pyStrip ((splitStr ';' v).headD ""))
    if pyIn "/" ct then ct else "text/plain"

/-- The candidate test of the first loop of `_extract_text` (lines 195-199):
content type `text/plain` and no `attachment` in the lowercased
Content-Disposition. Depends only on the node's headers. -/
def plainCandHdrs (hs : Headers) : Bool :=
  contentTypeOf hs == "text/plain"
    && !(pyIn "attachment" (strLower ((pyGet hs "Content-Disposition").getD "")))

/-- Candidate test of the first loop of `_extract_text` on a message node. -/
def isPlainCand (p : PyMsg) : Bool := plainCandHdrs p.headers

/-- Content-type test of the second loop of `_extract_text` (line 201). -/
def isHtmlHdrs (hs : Headers) : Bool := contentTypeOf hs == "text/html"

/-- Model of `BeautifulSoup(html, "html.parser").get_text(" ", strip=True)`
for markup made of plain tags and text (no entities or script/style blocks,
which none of the studied inputs contain): the text runs between tags are
individually trimmed, empty runs dropped, and the rest joined with a single
space. -/
def htmlGetText (html : String) : String :=
  let segs := (splitTags html.toList [] []).reverse
  joinWith " " (segs.filter (fun s => s ≠ ""))
where
  /-- Splits a character list into the trimmed text runs lying outside tags;
  `cur` is the current run reversed, `acc` the finished runs reversed. -/
  splitTags : List Char → List Char → List String → List String
  | [], cur, acc => String.mk (trimList cur.reverse) :: acc
  | '<' :: rest, cur, acc => inTag rest (String.mk (trimList cur.reverse) :: acc)
  | c :: rest, cur, acc => splitTags rest (c :: cur) acc
  /-- Skips to the closing `>` of a tag. -/
  inTag : List Char → List String → List String
  | [], acc => acc
  | '>' :: rest, acc => splitTags rest [] acc
  | _ :: rest, acc => inTag rest acc

/-- First part selected by the first loop of `_extract_text`: the first
non-attachment `text/plain` part of the walk. -/
def plainScan (l : List PyMsg) : Option PyMsg := l.find? isPlainCand

/-- One iteration of the second loop of `_extract_text` on a part: the
content when the part is `text/html` and `get_content()` succeeds; `none`
(continue) when it is not HTML or when extraction raises, which the
`except Exception: continue` swallows. -/
def htmlStep (p : PyMsg) : Option String :=
  if isHtmlHdrs p.headers then
    match getContent p with
    | .ok s => some s
    | .error _ => none
  else none

/-- Outcome of the second loop of `_extract_text`: the content of the first
`text/html` part whose `get_content()` succeeds; parts whose extraction
raises are skipped. -/
def htmlScan (l : List PyMsg) : Option String := l.findSome? htmlStep

/-- `EmailInboxAnalyzer._extract_text` (lines 192-210): on a multipart
message, return the stripped content of the first non-attachment plain-text
part (exceptions from that `get_content()` propagate: the first loop has no
handler); otherwise the tag-stripped text of the first extractable HTML
part, else the empty string; a non-multipart message returns its own
stripped content, whatever its content type. -/
def extract_text : PyMsg → Except PyExn String
  | .single _ c =>
    match c with
    | .ok s => .ok (pyStrip s)
    | .error e => .error e
  | .multi hs ps =>
    match plainScan (PyMsg.multi hs ps).walk with
    | some p =>
      match getContent p with
      | .ok s => .ok (pyStrip s)
      | .error e => .error e
    | none =>
      match htmlScan (PyMsg.multi hs ps).walk with
      | some h => .ok (htmlGetText h)
      | none => .ok ""


/-- The character class `[:\s-]` of the due-date patterns. -/
def sepC (c : Char) : Bool := c == ':' || isSpaceC c || c == '-'

/-- Python `\w` on the ASCII range (the studied bodies are ASCII at every
boundary position). -/
def isWordC (c : Char) : Bool := c.isAlphanum || c == '_'

/-- Case-insensitive literal match: consumes `kw` (given lowercase) from the
head of `s`, comparing lowercased characters, and returns the remainder. -/
def ciStrip : List Char → List Char → Option (List Char)
  | [], s => some s
  | _ :: _, [] => none
  | k :: ks, c :: cs => if k == c.toLower then ciStrip ks cs else none

/-- `\s+`, maximal munch (always equivalent to the regex here because the
following literal starts with a non-space character). -/
def spacePlus : List Char → Option (List Char)
  | [] => none
  | c :: cs => if isSpaceC c then some (cs.dropWhile isSpaceC) else none

/-- `[:\s-]+`, maximal munch (equivalent to the regex here because the date
that follows starts with a digit, which the class excludes). -/
def sepMunch : List Char → Option (List Char)
  | [] => none
  | c :: cs => if sepC c then some (cs.dropWhile sepC) else none

/-- `\d{n}`: exactly `n` ASCII digits, returning them and the remainder. -/
def takeDigits : Nat → List Char → Option (List Char × List Char)
  | 0, s => some ([], s)
  | _ + 1, [] => none
  | n + 1, c :: cs =>
    if c.isDigit then (takeDigits n cs).map (fun p => (c :: p.1, p.2)) else none

/-- `\d{lo,hi}`: the backtracking candidates in greedy order (longest first). -/
def digitCands (lo hi : Nat) (s : List Char) : List (List Char × List Char) :=
  (List.range (hi + 1 - lo)).filterMap fun i => takeDigits (hi - i) s

/-- Consumes one expected literal character. -/
def expectChar (c : Char) : List Char → Option (List Char)
  | [] => none
  | x :: xs => if x == c then some xs else none

/-- Remainders after the alternative `due(?:\s+date)?` at the head of `s`, in
the regex's greedy backtracking order (with the optional part first). -/
def dueRemainders (s : List Char) : List (List Char) :=
  match ciStrip "due".toList s with
  | none => []
  | some r =>
    (match spacePlus r with
     | some r2 => (ciStrip "date".toList r2).toList
     | none => []) ++ [r]

/-- Remainders after the alternative `fecha\s+límite` at the head of `s`. -/
def fechaRemainders (s : List Char) : List (List Char) :=
  match ciStrip "fecha".toList s with
  | none => []
  | some r =>
    match spacePlus r with
    | none => []
    | some r2 => (ciStrip "límite".toList r2).toList

/-- Remainders after the keyword alternation
`(?:vencimiento|vence|antes del|deadline|due(?:\s+date)?|fecha\s+límite)`
at the head of `s`, in the regex's alternation order. -/
def kwRemainders (s : List Char) : List (List Char) :=
  (ciStrip "vencimiento".toList s).toList ++
  (ciStrip "vence".toList s).toList ++
  (ciStrip "antes del".toList s).toList ++
  (ciStrip "deadline".toList s).toList ++
  dueRemainders s ++
  fechaRemainders s

/-- `(\d{4}-\d{2}-\d{2})` at the head of `s`: the captured text and remainder. -/
def isoAt (s : List Char) : Option (String × List Char) :=
  match takeDigits 4 s with
  | none => none
  | some (a, r1) =>
    match expectChar '-' r1 with
    | none => none
    | some r2 =>
      match takeDigits 2 r2 with
      | none => none
      | some (b, r3) =>
        match expectChar '-' r3 with
        | none => none
        | some r4 =>
          match takeDigits 2 r4 with
          | none => none
          | some (c, r5) => some (String.mk (a ++ '-' :: b ++ '-' :: c), r5)

/-- `(\d{1,2}/\d{1,2}/\d{2,4})` at the head of `s`: all captured-text/remainder
candidates in the regex's backtracking order. -/
def slashAt (s : List Char) : List (String × List Char) :=
  (digitCands 1 2 s).flatMap fun dc =>
    match expectChar '/' dc.2 with
    | none => []
    | some r2 =>
      (digitCands 1 2 r2).flatMap fun mc =>
        match expectChar '/' mc.2 with
        | none => []
        | some r4 =>
          (digitCands 2 4 r4).map fun yc =>
            (String.mk (dc.1 ++ '/' :: mc.1 ++ '/' :: yc.1), yc.2)

/-- Pattern 1, `(?:keywords)[:\s-]+(\d{4}-\d{2}-\d{2})`, anchored at the head
of `s`: the group-1 text of the first full match in backtracking order. -/
def matchP1At (s : List Char) : Option String :=
  (kwRemainders s).findSome? fun r =>
    match sepMunch r with
    | none => none
    | some r2 => (isoAt r2).map Prod.fst

/-- Pattern 2, `(?:keywords)[:\s-]+(\d{1,2}/\d{1,2}/\d{2,4})`, anchored at the
head of `s`. -/
def matchP2At (s : List Char) : Option String :=
  (kwRemainders s).findSome? fun r =>
    match sepMunch r with
    | none => none
    | some r2 => ((slashAt r2).head?).map Prod.fst

/-- `\b` before a digit: the previous character, if any, is not a word
character (the digit that follows is one). -/
def boundaryBefore : Option Char → Bool
  | none => true
  | some c => !isWordC c

/-- `\b` after a digit: the next character, if any, is not a word character. -/
def boundaryAfter : List Char → Bool
  | [] => true
  | c :: _ => !isWordC c

/-- Pattern 3, `\b(\d{4}-\d{2}-\d{2})\b`, anchored at the head of `s` with
previous character `prev`. -/
def matchP3At (prev : Option Char) (s : List Char) : Option String :=
  if boundaryBefore prev then
    match isoAt s with
    | none => none
    | some (g, r) => if boundaryAfter r then some g else none
  else none

/-- Pattern 4, `\b(\d{1,2}/\d{1,2}/\d{2,4})\b`, anchored at the head of `s`
with previous character `prev`. -/
def matchP4At (prev : Option Char) (s : List Char) : Option String :=
  if boundaryBefore prev then
    (slashAt s).findSome? fun gc => if boundaryAfter gc.2 then some gc.1 else none
  else none

/-- `re.search` for an anchored matcher without lookbehind: positions are
tried left to right, the first position with a full match wins. -/
def searchP (f : List Char → Option String) : List Char → Option String
  | [] => f []
  | c :: cs =>
    match f (c :: cs) with
    | some g => some g
    | none => searchP f cs

/-- `re.search` for an anchored matcher that inspects the previous character
(for `\b`). -/
def searchPrev (f : Option Char → List Char → Option String) :
    Option Char → List Char → Option String
  | prev, [] => f prev []
  | prev, c :: cs =>
    match f prev (c :: cs) with
    | some g => some g
    | none => searchPrev f (some c) cs

/-- One step of the pattern loop of `_extract_due_date` (lines 226-231): a
matched group that fails to parse falls through to the next pattern. -/
def tryPat (g : Option String) : Option DT := g.bind safe_parse_datetime

/-- The body scan of `_extract_due_date`: the four patterns in fixed order,
first parsed match wins. -/
def scanPatterns (body : String) : Option DT :=
  let s := body.toList
  match tryPat (searchP matchP1At s) with
  | some d => some d
  | none =>
    match tryPat (searchP matchP2At s) with
    | some d => some d
    | none =>
      match tryPat (searchPrev matchP3At none s) with
      | some d => some d
      | none => tryPat (searchPrev matchP4At none s)

/-- `EmailInboxAnalyzer._extract_due_date` (lines 212-232): the first truthy
value of `message.get("Reply-By") or message.get("X-Response-Due")` is
parsed day-first; on success it is returned, on failure (or when neither
header is truthy) the body patterns are scanned. -/
def extract_due_date (m : PyMsg) (body : String) : Option DT :=
  match pyOrStr (pyGet m.headers "Reply-By") (pyGet m.headers "X-Response-Due") with
  | some s =>
    match safe_parse_datetime s with
    | some d => some d
    | none => scanPatterns body
  | none => scanPatterns body

/-- The task keyword list of `_has_pending_task` (lines 271-281). -/
def taskKeywords : List String :=
  ["tarea", "pendiente", "por favor", "se requiere", "favor de",
   "accion", "acción", "follow up", "recordatorio"]

/-- `EmailInboxAnalyzer._has_pending_task` (lines 269-284): case-insensitive
substring match of the keyword set against the body and against the subject. -/
def has_pending_task (body subject : String) : Bool :=
  taskKeywords.any (fun k => pyIn k (strLower body))
    || taskKeywords.any (fun k => pyIn k (strLower subject))

/-- `_decode_header` applied to a header value already decoded by
`policy.default` and containing no encoded words: `email.header.decode_header`
returns the string as a single plain segment, so the method reduces to a
trim. (The raw-segment behavior, including its failure mode, is modelled
separately below for the header-decoding claims.) -/
def decodeHeaderStr (s : String) : String := pyStrip s

/-- The high-priority keyword list of `_extract_priority` (line 261). -/
def highKeywords : List String :=
  ["urgente", "asap", "importante", "prioridad", "accion requerida"]

/-- The low-priority keyword list of `_extract_priority` (line 262). -/
def lowKeywords : List String := ["sin prisa", "cuando puedas", "baja prioridad"]

/-- The value of `(message.get("X-Priority") or message.get("Priority") or
message.get("Importance") or "").lower()` (lines 248-253). -/
def priorityHeader (m : PyMsg) : String :=
  strLower ((pyOrStr (pyGet m.headers "X-Priority")
    (pyOrStr (pyGet m.headers "Priority") (pyGet m.headers "Importance"))).getD "")

/-- `EmailInboxAnalyzer._extract_priority` (lines 246-267): a priority header
containing a decisive token returns immediately; only otherwise are the
keyword sets scanned over lowercased subject plus body. -/
def extract_priority (m : PyMsg) (body : String) : String :=
  let ph := priorityHeader m
  if pyIn "1" ph || pyIn "high" ph || pyIn "urgent" ph then "Alta"
  else if pyIn "5" ph || pyIn "low" ph then "Baja"
  else
    let subject := decodeHeaderStr ((pyGet m.headers "Subject").getD "")
    let t := strLower (subject ++ "\n" ++ body)
    if highKeywords.any (fun k => pyIn k t) then "Alta"
    else if lowKeywords.any (fun k => pyIn k t) then "Baja"
    else "Normal"

/-- One segment of the output of `email.header.decode_header`: either an
undecoded byte run with its announced charset (`none` = unlabeled, decoded
as utf-8 by `_decode_header`), or an already-plain string segment. -/
inductive HdrSeg where
  | txt (s : String)
  | raw (b : List Nat) (enc : Option String)

/-- The platform codec registry as `_decode_header` exercises it:
`known e` tells whether `bytes.decode(e, ...)` recognizes the encoding name
`e` (an unrecognized name raises `LookupError` before any error handler
applies), and `decodeRepl e b` is the text that `b.decode(e, errors="replace")`
yields for a known encoding (total: the replace handler substitutes U+FFFD
for undecodable bytes instead of failing). -/
structure CodecEnv where
  known : String → Bool
  decodeRepl : String → List Nat → String

/-- The segment loop of `_decode_header` (lines 164-169): byte segments are
decoded with `part.decode(encoding or "utf-8", errors="replace")`, string
segments pass through, and the concatenation is returned. An encoding name
the platform does not recognize makes `bytes.decode` raise `LookupError`,
which nothing in the method catches. -/
def decodeSegs (env : CodecEnv) : List HdrSeg → Except PyExn String
  | [] => .ok ""
  | .txt s :: rest =>
    match decodeSegs env rest with
    | .ok t => .ok (s ++ t)
    | .error e => .error e
  | .raw b enc :: rest =>
    let e := enc.getD "utf-8"
    if env.known e then
      match decodeSegs env rest with
      | .ok t => .ok (env.decodeRepl e b ++ t)
      | .error er => .error er
    else .error .lookupError

/-- `EmailInboxAnalyzer._decode_header` (lines 160-170) applied to the segment
list that `email.header.decode_header` produced for the raw value: decoded
segments joined in order and stripped. -/
def decode_header_model (env : CodecEnv) (segs : List HdrSeg) : Except PyExn String :=
  match decodeSegs env segs with
  | .ok s => .ok (pyStrip s)
  | .error e => .error e

/-- Outcomes of the two library parsers that `_parse_date_header` calls on a
given header string: `parsedate` is `email.utils.parsedate_to_datetime`
(which returns a datetime or raises, e.g. `ValueError` on malformed input and
`OverflowError` when the year field exceeds the C int range), and
`dateparse` is `dateutil.parser.parse` (which returns a datetime or raises
`ParserError`, a `ValueError`, on unrecognized text). -/
structure LibEnv where
  parsedate : String → Except PyExn DT
  dateparse : String → Except PyExn DT

/-- `EmailInboxAnalyzer._parse_date_header` (lines 172-186): a falsy value
gives `None`; otherwise `parsedate_to_datetime` is tried, a naive result is
returned as is and an aware result is converted with `astimezone()` (inside
the same `try`, whose handler catches only `TypeError` and `ValueError`);
on those two exceptions `dateutil.parser.parse` is tried, with
`ValueError`/`TypeError`/`OverflowError` collapsing to `None`. Any other
escaping exception propagates to the caller. -/
def parse_date_header (env : LibEnv) (value : Option String) : Except PyExn (Option DT) :=
  match pyTruthy value with
  | none => .ok none
  | some s =>
    match env.parsedate s with
    | .ok dt =>
      match dt.tz with
      | none => .ok (some dt)
      | some _ =>
        match astimezoneE dt with
        | .ok x => .ok (some x)
        | .error e => .error e
    | .error e =>
      if e = .typeError || e = .valueError then
        match env.dateparse s with
        | .ok dt => .ok (some dt)
        | .error e2 =>
          if e2 = .valueError || e2 = .typeError || e2 = .overflowError then .ok none
          else .error e2
      else .error e

/-- The spec's ordering example: an unread record received 2024-01-01. -/
def recUnreadJan : EmailRecord :=
  { uid := "1", subject := "", sender := "", date_received := some (mkDT 2024 1 1),
    due_date := none, priority := "Normal", read_status := "No leído", pending_task := false }

/-- The spec's ordering example: a read record received 2024-06-01. -/
def recReadJun : EmailRecord :=
  { uid := "2", subject := "", sender := "", date_received := some (mkDT 2024 6 1),
    due_date := none, priority := "Normal", read_status := "Leído", pending_task := false }

/-- An unread record whose received date is timezone-aware
(2024-06-01T00:00+00:00, parsed from a Date header with a zone offset). -/
def recAwareUnread : EmailRecord :=
  { uid := "3", subject := "", sender := "", date_received := some ⟨(mkDT 2024 6 1).m, some 0⟩,
    due_date := none, priority := "Normal", read_status := "No leído", pending_task := false }

/-- An unread record with no received date, so its sort key substitutes the
naive `datetime.min`. -/
def recNoDateUnread : EmailRecord :=
  { uid := "4", subject := "", sender := "", date_received := none,
    due_date := none, priority := "Normal", read_status := "No leído", pending_task := false }

/-- Body text of the keyword-plus-ISO-date example. -/
def bodyC3 : String := "Por favor enviar el informe antes del 2024-05-10"

/-- Body text of the bare day/month/year example. -/
def bodyC5 : String := "Nos vemos el 10/05/2024"

/-- A message whose Reply-By header holds text dateutil cannot parse
("tomorrow" raises `ParserError`, so the model's day-first parse yields
`none`) while X-Response-Due holds a cleanly parseable ISO date. -/
def msgReplyByBad : PyMsg :=
  .single [("Reply-By", "tomorrow"), ("X-Response-Due", "2024-05-10")] (.ok "")

/-- A message whose only Reply-By header is a non-empty unparseable value. -/
def msgReplyByX : PyMsg := .single [("Reply-By", "x")] (.ok "")

/-- A message with no Reply-By header whose X-Response-Due header is a
non-empty parseable ISO date. -/
def msgRespDueOnly : PyMsg := .single [("X-Response-Due", "2024-05-10")] (.ok "")

/-- A non-multipart message whose single body is HTML. -/
def msgSingleHtml : PyMsg :=
  .single [("Content-Type", "text/html")] (.ok "<b>Hola</b> mundo")

/-- A multipart message whose only content part is HTML. -/
def msgMultiHtml : PyMsg :=
  .multi [("Content-Type", "multipart/alternative")]
    [.single [("Content-Type", "text/html")] (.ok "<b>Hola</b> mundo")]

/-- A message with X-Priority set to "1 (Highest)" and a body full of
low-priority keywords. -/
def msgXPriority1 : PyMsg := .single [("X-Priority", "1 (Highest)")] (.ok "")

/-- Library outcomes at the Date header value "31 Dec 9999 23:59:59 -0500":
`email.utils.parsedate_to_datetime` parses it successfully into the aware
datetime 9999-12-31T23:59:59-05:00 (the year is ≥ 100, so `_parsedate_tz`
keeps it as written), modelled at minute resolution as the last
representable minute with offset -300 (the dropped 59 seconds only move the
overflow margin, not its occurrence); `dateutil.parser.parse` is never
reached on this input. -/
def envMaxAware : LibEnv :=
  { parsedate := fun _ => .ok ⟨dtMaxMinutes, some (-300)⟩,
    dateparse := fun _ => .ok ⟨0, none⟩ }

/-- A codec registry that recognizes no encoding name; its permissive decoder
is never consulted. Used only to witness the unknown-charset theorem, whose
hypothesis merely requires "x-unknown-charset" to be unrecognized, as it is
on CPython. -/
def envNoCodec : CodecEnv := { known := fun _ => false, decodeRepl := fun _ _ => "" }

/-- Headers announcing `text/html`, as on the failing HTML candidate part. -/
def htmlPartHdrs : Headers := [("Content-Type", "text/html")]

theorem plainScan_cons_of_not (p : PyMsg) (l : List PyMsg)
    (hp : isPlainCand p = false) : plainScan (p :: l) = plainScan l := by
  simp [plainScan, List.find?, hp]

theorem plainScan_cons_of_cand (p : PyMsg) (l : List PyMsg)
    (hp : isPlainCand p = true) : plainScan (p :: l) = some p := by
  simp [plainScan, List.find?, hp]

theorem htmlScan_cons_of_none (p : PyMsg) (l : List PyMsg)
    (hp : htmlStep p = none) : htmlScan (p :: l) = htmlScan l := by
  simp [htmlScan, List.findSome?, hp]

theorem htmlStep_multi (hs : Headers) (ps : List PyMsg) :
    htmlStep (.multi hs ps) = none := by
  by_cases h : isHtmlHdrs hs <;> simp [htmlStep, getContent, PyMsg.headers, h]

theorem isPlainCand_multi (hs : Headers) (ps : List PyMsg) :
    isPlainCand (.multi hs ps) = plainCandHdrs hs := rfl

/-- Unfolding equation of `_extract_text` on a multipart message. -/
theorem extract_text_multi_def (hs : Headers) (ps : List PyMsg) :
    extract_text (.multi hs ps) =
      (match plainScan (PyMsg.multi hs ps :: PyMsg.walkList ps) with
        | some p =>
          match getContent p with
          | .ok s => Except.ok (pyStrip s)
          | .error e => Except.error e
        | none =>
          match htmlScan (PyMsg.multi hs ps :: PyMsg.walkList ps) with
          | some h => Except.ok (htmlGetText h)
          | none => Except.ok "") := rfl

/-- `_extract_text` on two multipart messages whose part walks agree on the
plain-part scan and on the HTML scan, provided the container itself is
not a plain-text candidate. -/
theorem extract_text_multi_congr (hs : Headers) (l1 l2 : List PyMsg)
    (h1 : plainCandHdrs hs = false)
    (hplain : plainScan (PyMsg.walkList l1) = plainScan (PyMsg.walkList l2))
    (hhtml : htmlScan (PyMsg.walkList l1) = htmlScan (PyMsg.walkList l2)) :
    extract_text (.multi hs l1) = extract_text (.multi hs l2) := by
  rw [extract_text_multi_def hs l1, extract_text_multi_def hs l2]
  rw [plainScan_cons_of_not _ _ ((isPlainCand_multi hs l1).trans h1)]
  rw [plainScan_cons_of_not _ _ ((isPlainCand_multi hs l2).trans h1)]
  rw [htmlScan_cons_of_none _ _ (htmlStep_multi hs l1)]
  rw [htmlScan_cons_of_none _ _ (htmlStep_multi hs l2)]
  rw [hplain, hhtml]

/-- Claim C1. The claim asserts that the sort performed in `fetch_messages`
over `EmailRecord.sort_key` orders unread records before read ones, so on
the spec's own example (one unread record received 2024-01-01, one read
record received 2024-06-01) the first record of the result would be the
unread one. Evaluating the code's sort (`reverse=True` over the key
`(read_weight, date)`) at exactly that input instead places the read record
first: `reverse=True` flips the read-weight component, contradicting the
sort key's own comment "Los no leídos primero (0), luego leídos (1)". -/
theorem fetch_sort_puts_read_record_first :
    pySortRev [recUnreadJan, recReadJun] = .ok [recReadJun, recUnreadJan]
      ∧ recUnreadJan.read_status = "No leído"
      ∧ recReadJun.read_status = "Leído" :=
  ⟨rfl, rfl, rfl⟩

/-- Claim C10. A collection of two records in the same read-state group, one
with a timezone-aware received date and one with no received date (whose
sort key substitutes the naive `datetime.min`), makes the sort in
`fetch_messages` raise `TypeError`: Python refuses to order an aware
datetime against a naive one. -/
theorem fetch_sort_mixed_awareness_raises :
    pySortRev [recAwareUnread, recNoDateUnread] = .error .typeError
      ∧ recAwareUnread.read_status = recNoDateUnread.read_status
      ∧ (recAwareUnread.date_received.map DT.tz) = some (some 0)
      ∧ recNoDateUnread.date_received = none
      ∧ sort_key recNoDateUnread = (0, datetimeMin)
      ∧ datetimeMin.tz = none :=
  ⟨rfl, rfl, rfl, rfl, rfl, rfl⟩

/-- Claim C3. On the body "Por favor enviar el informe antes del 2024-05-10"
with no due-date headers, `_extract_due_date` returns 2024-05-10 (the
keyword-plus-ISO-date pattern fires and parses) and `_has_pending_task` is
true (the body contains "por favor"). -/
theorem due_date_antes_del_and_pending :
    extract_due_date (.single [] (.ok bodyC3)) bodyC3 = some (mkDT 2024 5 10)
      ∧ has_pending_task bodyC3 "" = true :=
  ⟨rfl, rfl⟩

/-- Claim C5. On the body "Nos vemos el 10/05/2024", which contains no
due-date keyword, only the bare day/month/year pattern matches, and the
day-first parse reads it as 10 May 2024, not 5 October 2024. -/
theorem due_date_bare_slash_dayfirst :
    extract_due_date (.single [] (.ok bodyC5)) bodyC5 = some (mkDT 2024 5 10)
      ∧ mkDT 2024 5 10 ≠ mkDT 2024 10 5 :=
  ⟨rfl, by decide⟩

/-- Claim C7. The claim asserts `_parse_date_header` never raises, in every
code path including the timezone conversion applied to aware results. It
does raise: on the header value "31 Dec 9999 23:59:59 -0500",
`parsedate_to_datetime` succeeds with an aware datetime at the very top of
the representable range, and the `astimezone()` call on line 180 — inside
the `try` whose handler catches only `TypeError` and `ValueError` — first
shifts the value to UTC by subtracting the -05:00 offset, pushing it past
`datetime.max` into year 10000 and raising `OverflowError` whatever the
local zone, so the exception escapes the method. -/
theorem parse_date_header_overflow_raises :
    parse_date_header envMaxAware (some "31 Dec 9999 23:59:59 -0500")
      = .error .overflowError := rfl

/-- Claim C2. Any message whose X-Priority header is "1 (Highest)" is
classified "Alta" by `_extract_priority`, whatever the body (and subject)
contain: the lowered header contains the token "1", so the method returns on
line 255 and the keyword scan, including its low-priority branch, is never
reached. -/
theorem priority_header_one_highest (m : PyMsg) (body : String)
    (h : pyGet m.headers "X-Priority" = some "1 (Highest)") :
    extract_priority m body = "Alta" := by
  have hph : priorityHeader m = "1 (highest)" := by
    unfold priorityHeader
    rw [h]
    rfl
  unfold extract_priority
  rw [hph]
  rfl

/-- Witness for C2: the hypothesis holds and the theorem applies on a
concrete message whose body consists of low-priority keywords. -/
theorem priority_header_one_highest_witness :
    pyGet msgXPriority1.headers "X-Priority" = some "1 (Highest)"
      ∧ extract_priority msgXPriority1 "sin prisa, cuando puedas" = "Alta" :=
  ⟨rfl, priority_header_one_highest msgXPriority1 "sin prisa, cuando puedas" rfl⟩

/-- Claim C4 counterexample. The claim extends tag-stripping to "the case of
a message with no nested parts whose single body is HTML", but
`_extract_text` handles a non-multipart message on line 210 by returning
`message.get_content().strip()` directly, so the single-part HTML message
"<b>Hola</b> mundo" comes back with its tags intact, not as "Hola mundo". -/
theorem extract_text_singlepart_html_keeps_tags :
    extract_text msgSingleHtml = .ok "<b>Hola</b> mundo"
      ∧ pyIn "<" "<b>Hola</b> mundo" = true
      ∧ ("<b>Hola</b> mundo" : String) ≠ "Hola mundo" :=
  ⟨rfl, rfl, by decide⟩

/-- Claim C4 (amended). For a multipart message whose walk contains no
non-attachment plain-text candidate and whose first extractable HTML part
has content `h`, `_extract_text` returns the tag-stripped,
whitespace-collapsed text of `h` (a non-multipart HTML message instead
returns its body verbatim, only whitespace-trimmed). -/
theorem extract_text_multipart_html (hs : Headers) (ps : List PyMsg) (h : String)
    (hp : plainScan (PyMsg.multi hs ps).walk = none)
    (hh : htmlScan (PyMsg.multi hs ps).walk = some h) :
    extract_text (.multi hs ps) = .ok (htmlGetText h) := by
  rw [show (PyMsg.multi hs ps).walk = PyMsg.multi hs ps :: PyMsg.walkList ps from rfl]
    at hp hh
  rw [extract_text_multi_def hs ps, hp, hh]

/-- Witness for C4: on the multipart message whose only content part is the
HTML "<b>Hola</b> mundo", the hypotheses hold and the extraction yields the
non-empty tag-free text "Hola mundo". -/
theorem extract_text_multipart_html_witness :
    plainScan msgMultiHtml.walk = none
      ∧ htmlScan msgMultiHtml.walk = some "<b>Hola</b> mundo"
      ∧ extract_text msgMultiHtml = .ok "Hola mundo"
      ∧ ("Hola mundo" : String) ≠ "" :=
  ⟨rfl, rfl,
    (extract_text_multipart_html [("Content-Type", "multipart/alternative")]
      [.single [("Content-Type", "text/html")] (.ok "<b>Hola</b> mundo")]
      "<b>Hola</b> mundo" rfl rfl).trans rfl,
    by decide⟩

/-- Claim C6 counterexample. With Reply-By present but unparseable
("tomorrow") and X-Response-Due present and cleanly parseable
("2024-05-10"), `_extract_due_date` returns no date at all: line 214's
`message.get("Reply-By") or message.get("X-Response-Due")` selects the
first truthy header only, so the failed Reply-By parse falls through to the
(empty) body scan and X-Response-Due is never consulted — the claim says
the result would be 2024-05-10. -/
theorem due_replyby_failure_skips_response_due :
    extract_due_date msgReplyByBad "" = none
      ∧ pyGet msgReplyByBad.headers "X-Response-Due" = some "2024-05-10"
      ∧ safe_parse_datetime "2024-05-10" = some (mkDT 2024 5 10) :=
  ⟨rfl, rfl, rfl⟩

theorem pyOrStr_some_of_ne (s : String) (b : Option String) (hne : s ≠ "") :
    pyOrStr (some s) b = some s := by
  simp [pyOrStr, pyTruthy, hne]

theorem pyOrStr_snd_of_ne (a : Option String) (s : String)
    (h1 : pyTruthy a = none) (hne : s ≠ "") : pyOrStr a (some s) = some s := by
  unfold pyOrStr
  rw [h1]
  simp [pyTruthy, hne]

/-- Claim C6 (amended). The first non-empty header among Reply-By then
X-Response-Due — whichever of the two branches selects it — is parsed
day-first; on success that date is returned, and on failure the body
patterns are tried next, the other header playing no part in either branch. -/
theorem due_header_first_truthy (m : PyMsg) (body s : String) :
    (pyGet m.headers "Reply-By" = some s → s ≠ "" →
      extract_due_date m body =
        (match safe_parse_datetime s with
          | some d => some d
          | none => scanPatterns body))
    ∧ (pyTruthy (pyGet m.headers "Reply-By") = none →
        pyGet m.headers "X-Response-Due" = some s → s ≠ "" →
      extract_due_date m body =
        (match safe_parse_datetime s with
          | some d => some d
          | none => scanPatterns body)) := by
  constructor
  · intro h hne
    unfold extract_due_date
    rw [h, pyOrStr_some_of_ne s _ hne]
  · intro h1 h2 hne
    unfold extract_due_date
    rw [h2, pyOrStr_snd_of_ne _ s h1 hne]

/-- Witness for C6, both branches: a message whose only Reply-By value "x" is
non-empty and unparseable scans the (empty) body and yields none; a message
with no Reply-By and X-Response-Due "2024-05-10" yields that date even when
the body carries a different parseable date, which the scan alone would
return. -/
theorem due_header_first_truthy_witness :
    pyGet msgReplyByX.headers "Reply-By" = some "x"
      ∧ ("x" : String) ≠ ""
      ∧ extract_due_date msgReplyByX "" = none
      ∧ pyTruthy (pyGet msgRespDueOnly.headers "Reply-By") = none
      ∧ pyGet msgRespDueOnly.headers "X-Response-Due" = some "2024-05-10"
      ∧ extract_due_date msgRespDueOnly "vence: 2024-01-01" = some (mkDT 2024 5 10)
      ∧ scanPatterns "vence: 2024-01-01" = some (mkDT 2024 1 1) :=
  ⟨rfl, by decide,
    ((due_header_first_truthy msgReplyByX "" "x").1 rfl (by decide)).trans rfl,
    rfl, rfl,
    ((due_header_first_truthy msgRespDueOnly "vence: 2024-01-01" "2024-05-10").2
      rfl rfl (by decide)).trans rfl,
    rfl⟩

/-- Claim C8. The claim asserts `_decode_header` never raises, decoding
segments with unknown encoding names permissively. It does raise: for a raw
value such as "=?x-unknown-charset?q?hola?=", `email.header.decode_header`
yields the byte segment `hola` labeled "x-unknown-charset", and
`part.decode("x-unknown-charset", errors="replace")` raises `LookupError`
before the `errors="replace"` handler can apply, with no handler in the
method. The hypothesis records that the platform codec registry does not
recognize the name, as CPython does not. -/
theorem decode_header_unknown_encoding_raises (env : CodecEnv)
    (h : env.known "x-unknown-charset" = false) :
    decode_header_model env [.raw [104, 111, 108, 97] (some "x-unknown-charset")]
      = .error .lookupError := by
  simp [decode_header_model, decodeSegs, h]

/-- Witness for C8: the theorem applied to a concrete codec registry with no
known names. -/
theorem decode_header_unknown_encoding_raises_witness :
    envNoCodec.known "x-unknown-charset" = false
      ∧ decode_header_model envNoCodec
          [.raw [104, 111, 108, 97] (some "x-unknown-charset")] = .error .lookupError :=
  ⟨rfl, decode_header_unknown_encoding_raises envNoCodec rfl⟩

/-- Claim C9 counterexample. A multipart message whose first non-attachment
plain-text part fails to extract (`get_content()` raising `LookupError` for
an unsupported sub-encoding) makes `_extract_text` raise instead of
continuing: the first loop returns `part.get_content().strip()` with no
handler, so the next candidate part (a plain-text part that would yield
"hola") is never reached — the claim says the failure would be skipped for
plain-text candidates as well. -/
theorem extract_text_plain_failure_fatal :
    extract_text (.multi [("Content-Type", "multipart/mixed")]
      [.single [("Content-Type", "text/plain")] (.error .lookupError),
       .single [("Content-Type", "text/plain")] (.ok "hola")]) = .error .lookupError :=
  rfl

/-- Claim C9 (amended). Failures are skipped only on HTML candidates: an HTML
part whose extraction raises is passed over and the traversal continues
(dropping it leaves the result unchanged), while a failure on the first
non-attachment plain-text candidate propagates out of `_extract_text`. -/
theorem extract_text_failure_handling
    (hs hs2 hsp : Headers) (ps ps2 : List PyMsg) (e e2 : PyExn)
    (h1 : plainCandHdrs hs = false) (h2 : plainCandHdrs hs2 = false)
    (h3 : plainCandHdrs hsp = true) :
    extract_text (.multi hs (.single htmlPartHdrs (.error e) :: ps))
        = extract_text (.multi hs ps)
      ∧ extract_text (.multi hs2 (.single hsp (.error e2) :: ps2)) = .error e2 := by
  constructor
  · apply extract_text_multi_congr hs _ _ h1
    · rw [show PyMsg.walkList (PyMsg.single htmlPartHdrs (.error e) :: ps)
            = PyMsg.single htmlPartHdrs (.error e) :: PyMsg.walkList ps from rfl]
      exact plainScan_cons_of_not _ _ rfl
    · rw [show PyMsg.walkList (PyMsg.single htmlPartHdrs (.error e) :: ps)
            = PyMsg.single htmlPartHdrs (.error e) :: PyMsg.walkList ps from rfl]
      exact htmlScan_cons_of_none _ _ rfl
  · rw [extract_text_multi_def]
    rw [show PyMsg.walkList (PyMsg.single hsp (.error e2) :: ps2)
          = PyMsg.single hsp (.error e2) :: PyMsg.walkList ps2 from rfl]
    rw [plainScan_cons_of_not _ _ ((isPlainCand_multi hs2 _).trans h2)]
    rw [plainScan_cons_of_cand (PyMsg.single hsp (.error e2)) _ h3]
    rfl

/-- Witness for C9: concrete instantiation — the failing HTML part is skipped
(the result equals that of the message without it) and the failing
plain-text part is fatal. -/
theorem extract_text_failure_handling_witness :
    plainCandHdrs [("Content-Type", "multipart/mixed")] = false
      ∧ plainCandHdrs [("Content-Type", "text/plain")] = true
      ∧ (extract_text (.multi [("Content-Type", "multipart/mixed")]
            (.single htmlPartHdrs (.error .lookupError)
              :: [.single [("Content-Type", "text/html")] (.ok "<i>ok</i>")]))
          = extract_text (.multi [("Content-Type", "multipart/mixed")]
              [.single [("Content-Type", "text/html")] (.ok "<i>ok</i>")])
        ∧ extract_text (.multi [("Content-Type", "multipart/mixed")]
            [.single [("Content-Type", "text/plain")] (.error .valueError)])
          = .error .valueError) :=
  ⟨rfl, rfl,
    extract_text_failure_handling
      [("Content-Type", "multipart/mixed")] [("Content-Type", "multipart/mixed")]
      [("Content-Type", "text/plain")]
      [.single [("Content-Type", "text/html")] (.ok "<i>ok</i>")] []
      .lookupError .valueError rfl rfl rfl⟩
